import Mathlib

/-!
Verification of the scalcetting-tracker core (src/database/database.js).

The rating arithmetic of `calcolaELO` and the state transformation of
`createPartita`, `createGiocatore` and `resetDatabase` are embedded as Lean
functions.  JavaScript numbers are modelled over the rationals for every
value the program stores (ratings, means, deltas are all rational), while
the intermediate expected score `1 / (1 + 10^((eloB - eloA)/400))` lives in
the reals; `Math.round` is `⌊x + 1/2⌋` (nearest integer, exact halves
towards positive infinity), which is the JavaScript semantics.
-/

namespace Scalcetting

/-- JavaScript `Math.round`: nearest integer, exact halves rounded towards
positive infinity, i.e. `⌊x + 1/2⌋`. -/
noncomputable def jsRound (x : ℝ) : ℤ := ⌊x + 1/2⌋

/-- The expected-score expression `1 / (1 + Math.pow(10, (eloB - eloA) / 400))`
computed inside `calcolaELO` (database.js line 358). -/
noncomputable def atteso (eloA eloB : ℚ) : ℝ :=
  1 / (1 + (10 : ℝ) ^ (((eloB : ℝ) - (eloA : ℝ)) / 400))

/-- `calcolaELO(eloA, eloB, risultato, k)` from database.js lines 357-360:
`Math.round(eloA + k * (risultato - atteso))`. -/
noncomputable def calcolaELO (eloA eloB risultato k : ℚ) : ℤ :=
  jsRound ((eloA : ℝ) + (k : ℝ) * ((risultato : ℝ) - atteso eloA eloB))

/-- Rounding to the nearest integer with exact halves resolved away from
zero (half-up), the tie-breaking rule the specification ascribes to the
rating function. -/
noncomputable def roundHalfAwayFromZero (x : ℝ) : ℤ :=
  if 0 ≤ x then ⌊x + 1/2⌋ else ⌈x - 1/2⌉

/-- Modelled from the spec: `computeRating` as §4.1 words it, with the
spec's expected-score formula and ties resolved away from zero. -/
noncomputable def specComputeRating (ratingSelf ratingOpponent outcome k : ℚ) : ℤ :=
  roundHalfAwayFromZero
    ((ratingSelf : ℝ) + (k : ℝ) *
      ((outcome : ℝ) - 1 / (1 + (10 : ℝ) ^ (((ratingOpponent : ℝ) - (ratingSelf : ℝ)) / 400))))

/-- The spec's `computeRating` formula with the tie-breaking rule amended to
"exact halves towards positive infinity" (`⌊x + 1/2⌋`). -/
noncomputable def specComputeRatingHalfUp (ratingSelf ratingOpponent outcome k : ℚ) : ℤ :=
  ⌊(ratingSelf : ℝ) + (k : ℝ) *
      ((outcome : ℝ) - 1 / (1 + (10 : ℝ) ^ (((ratingOpponent : ℝ) - (ratingSelf : ℝ)) / 400)))
    + 1/2⌋

lemma atteso_self (a : ℚ) : atteso a a = 1/2 := by
  unfold atteso
  rw [sub_self, zero_div, Real.rpow_zero]
  norm_num

lemma calcolaELO_self (a k : ℚ) (r : ℚ) :
    calcolaELO a a r k = ⌊(a : ℝ) + (k : ℝ) * ((r : ℝ) - 1/2) + 1/2⌋ := by
  unfold calcolaELO jsRound
  rw [atteso_self]

/-- C1 (counterexample): at `eloA = eloB = 0`, `risultato = 0`, `k = 1` the
value to be rounded is exactly `-1/2`; the code (JavaScript `Math.round`)
returns `0`, while the spec's half-away-from-zero rounding returns `-1`. -/
theorem calcolaELO_rounding_counterexample :
    calcolaELO 0 0 0 1 ≠ specComputeRating 0 0 0 1 := by
  have h1 : calcolaELO 0 0 0 1 = 0 := by
    rw [calcolaELO_self]
    push_cast
    rw [Int.floor_eq_iff]
    constructor <;> norm_num
  have h2 : specComputeRating 0 0 0 1 = -1 := by
    unfold specComputeRating roundHalfAwayFromZero
    rw [show ((((0 : ℚ) : ℝ)) - (((0 : ℚ) : ℝ))) / 400 = 0 by push_cast; ring,
      Real.rpow_zero]
    split_ifs with h
    · exfalso
      push_cast at h
      norm_num at h
    · rw [Int.ceil_eq_iff]
      constructor <;> push_cast <;> norm_num
  rw [h1, h2]
  decide

/-- C1 (amended): for every pair of ratings, every outcome and every k,
`calcolaELO` returns `round(ratingSelf + k * (outcome - expectedScore))`
with `expectedScore = 1 / (1 + 10^((ratingOpponent - ratingSelf)/400))`,
where `round` maps every exact-half value towards positive infinity
(`⌊x + 1/2⌋`, JavaScript `Math.round`), not away from zero; the result is
always a single well-defined integer (the function is total and
deterministic, with no failure mode). -/
theorem calcolaELO_eq_specHalfUp (eloA eloB risultato k : ℚ) :
    calcolaELO eloA eloB risultato k = specComputeRatingHalfUp eloA eloB risultato k := rfl

/-- C4 (counterexample): at `r = 0`, `k = 1` (an odd k-factor) the claimed
conjunction fails: `calcolaELO 0 0 1 1 = 1 > 0` but `calcolaELO 0 0 0 1 = 0`
is not below `r = 0`, and the gain `1` differs from the loss `0`. -/
theorem calcolaELO_simmetria_counterexample :
    ¬ ((0 : ℤ) < calcolaELO 0 0 1 1 ∧ calcolaELO 0 0 0 1 < 0 ∧
        calcolaELO 0 0 1 1 - 0 = 0 - calcolaELO 0 0 0 1) := by
  have h1 : calcolaELO 0 0 0 1 = 0 := by
    rw [calcolaELO_self]
    push_cast
    rw [Int.floor_eq_iff]
    constructor <;> norm_num
  have h2 : calcolaELO 0 0 1 1 = 1 := by
    rw [calcolaELO_self]
    push_cast
    rw [Int.floor_eq_iff]
    constructor <;> norm_num
  rw [h1, h2]
  decide

/-- C4 (amended): for every integer rating `r` and every even positive
k-factor `k = 2*m` (`m ≥ 1`), at equal ratings the winner's new rating is
`r + m > r`, the loser's is `r - m < r`, and the winner's gain equals the
loser's loss.  (For odd `k` the tie-rounding of `Math.round` breaks both
the strict loss and the symmetry, as the counterexample shows.) -/
theorem calcolaELO_pari_equal_ratings (r : ℤ) (m : ℕ) (hm : 1 ≤ m) :
    calcolaELO r r 1 (2 * m) = r + m ∧ calcolaELO r r 0 (2 * m) = r - m ∧
      (r : ℤ) < calcolaELO r r 1 (2 * m) ∧ calcolaELO r r 0 (2 * m) < r ∧
      calcolaELO r r 1 (2 * m) - r = r - calcolaELO r r 0 (2 * m) := by
  have hwin : calcolaELO r r 1 (2 * m) = r + m := by
    rw [calcolaELO_self]
    push_cast
    rw [Int.floor_eq_iff]
    constructor
    · push_cast; ring_nf; norm_num
    · push_cast; ring_nf; norm_num
  have hloss : calcolaELO r r 0 (2 * m) = r - m := by
    rw [calcolaELO_self]
    push_cast
    rw [Int.floor_eq_iff]
    constructor
    · push_cast; ring_nf; norm_num
    · push_cast; ring_nf; norm_num
  refine ⟨hwin, hloss, ?_, ?_, ?_⟩
  · rw [hwin]; omega
  · rw [hloss]; omega
  · rw [hwin, hloss]; ring

/-- A row of the `giocatori` table (id, nome, ruolo, elo, partite,
vittorie, sconfitte); the timestamps are irrelevant to the claims and
omitted.  `elo` is a JavaScript number, modelled as a rational: the code
stores the result of `eloMap[giocatoreId] + deltaElo`, which need not be
an integer. -/
structure Giocatore where
  id : ℕ
  nome : String
  ruolo : String
  elo : ℚ
  partite : ℕ
  vittorie : ℕ
  sconfitte : ℕ
deriving DecidableEq

/-- A row of the `partite` table: two teams of two player ids and the
winner designator. -/
structure Partita where
  squadra1 : ℕ × ℕ
  squadra2 : ℕ × ℕ
  vincitore : ℕ
deriving DecidableEq

/-- The persistent store: the `giocatori` and `partite` tables. -/
structure DBState where
  giocatori : List Giocatore
  partite : List Partita
deriving DecidableEq

/-- The value `createPartita` returns on success (insert id omitted). -/
structure PartitaResult where
  squadra1 : ℕ × ℕ
  squadra2 : ℕ × ℕ
  vincitore : ℕ
  delta1 : ℚ
  delta2 : ℚ
deriving DecidableEq

/-- Row lookup by primary key (`SELECT ... WHERE id = ?`). -/
def findGiocatore (db : DBState) (gid : ℕ) : Option Giocatore :=
  db.giocatori.find? (fun g => g.id = gid)

/-- `SELECT id, elo FROM giocatori WHERE id IN (?,?,?,?)` (database.js
lines 270-273): the table rows whose id occurs among the supplied ids. -/
def selectGiocatoriIn (db : DBState) (ids : List ℕ) : List Giocatore :=
  db.giocatori.filter (fun g => g.id ∈ ids)

/-- The `eloMap` lookup of `createPartita` (database.js lines 280-283),
reading a player's current elo from the pre-update store. -/
def eloDi (db : DBState) (gid : ℕ) : ℚ :=
  match findGiocatore db gid with
  | some g => g.elo
  | none => 0

/-- The row transformation of the `UPDATE giocatori SET elo = ?, partite =
partite + 1, vittorie = vittorie + ?, sconfitte = sconfitte + ? WHERE id =
?` statement (database.js lines 305-312). -/
def aggiornaGiocatore (gid : ℕ) (nuovoElo : ℚ) (isVincitore : ℕ) (g : Giocatore) : Giocatore :=
  if g.id = gid then
    { g with
      elo := nuovoElo
      partite := g.partite + 1
      vittorie := g.vittorie + isVincitore
      sconfitte := g.sconfitte + (1 - isVincitore) }
  else g

/-- The state effect of one `UPDATE giocatori ... WHERE id = ?`. -/
def updateGiocatore (db : DBState) (gid : ℕ) (nuovoElo : ℚ) (isVincitore : ℕ) : DBState :=
  { db with giocatori := db.giocatori.map (aggiornaGiocatore gid nuovoElo isVincitore) }

/-- The team mean `(eloMap[s[0]] + eloMap[s[1]]) / 2` of `createPartita`
(database.js lines 286-287). -/
def eloSquadra (db : DBState) (s : ℕ × ℕ) : ℚ :=
  (eloDi db s.1 + eloDi db s.2) / 2

/-- `vincitore === t ? 1 : 0`. -/
def seVincitore (vincitore t : ℕ) : ℕ :=
  if vincitore = t then 1 else 0

/-- The uniform scalar delta of a team: `calcolaELO(own mean, other mean,
outcome, 32) - own mean` (database.js lines 290-298). -/
noncomputable def deltaSquadra (db : DBState) (mia altra : ℕ × ℕ) (risultato : ℚ) : ℚ :=
  (calcolaELO (eloSquadra db mia) (eloSquadra db altra) risultato 32 : ℚ) -
    eloSquadra db mia

/-- The committed store after a successful `createPartita`: the four
player updates (each player's new elo being its pre-match elo plus its
team's delta, read from the pre-match `eloMap`) followed by the match
insert (database.js lines 301-333). -/
noncomputable def statoDopoPartita (db : DBState) (squadra1 squadra2 : ℕ × ℕ)
    (vincitore : ℕ) : DBState :=
  let deltaElo1 := deltaSquadra db squadra1 squadra2 (if vincitore = 1 then 1 else 0)
  let deltaElo2 := deltaSquadra db squadra2 squadra1 (if vincitore = 2 then 1 else 0)
  let d1 := updateGiocatore db squadra1.1 (eloDi db squadra1.1 + deltaElo1)
    (seVincitore vincitore 1)
  let d2 := updateGiocatore d1 squadra1.2 (eloDi db squadra1.2 + deltaElo1)
    (seVincitore vincitore 1)
  let d3 := updateGiocatore d2 squadra2.1 (eloDi db squadra2.1 + deltaElo2)
    (seVincitore vincitore 2)
  let d4 := updateGiocatore d3 squadra2.2 (eloDi db squadra2.2 + deltaElo2)
    (seVincitore vincitore 2)
  { d4 with partite := d4.partite ++ [⟨squadra1, squadra2, vincitore⟩] }

/-- The value returned by a successful `createPartita` (database.js lines
337-346). -/
noncomputable def risultatoPartita (db : DBState) (squadra1 squadra2 : ℕ × ℕ)
    (vincitore : ℕ) : PartitaResult :=
  ⟨squadra1, squadra2, vincitore,
    deltaSquadra db squadra1 squadra2 (if vincitore = 1 then 1 else 0),
    deltaSquadra db squadra2 squadra1 (if vincitore = 2 then 1 else 0)⟩

/-- `createPartita(squadra1, squadra2, vincitore)` (database.js lines
260-355), with connection-failure injection: `guasto i = true` makes the
i-th statement executed on the transaction connection throw (`0` the
player fetch, `1`-`4` the four updates, `5` the insert, `6` the commit).
The code runs every statement on a dedicated transaction connection and
calls `rollback()` in its catch block, so the durable store after any
failure is the pre-call state `db`; only the commit makes the draft
`statoDopoPartita` durable.  The function returns the thrown/returned
value together with the durable store. -/
noncomputable def createPartitaConGuasto (db : DBState) (squadra1 squadra2 : ℕ × ℕ)
    (vincitore : ℕ) (guasto : ℕ → Bool) : Except String PartitaResult × DBState :=
  if guasto 0 then (.error "errore di connessione", db) else
  if (selectGiocatoriIn db [squadra1.1, squadra1.2, squadra2.1, squadra2.2]).length ≠ 4 then
    (.error "Uno o più giocatori non esistono", db) else
  if guasto 1 then (.error "errore di connessione", db) else
  if guasto 2 then (.error "errore di connessione", db) else
  if guasto 3 then (.error "errore di connessione", db) else
  if guasto 4 then (.error "errore di connessione", db) else
  if guasto 5 then (.error "errore di connessione", db) else
  if guasto 6 then (.error "errore di connessione", db) else
  (.ok (risultatoPartita db squadra1 squadra2 vincitore),
    statoDopoPartita db squadra1 squadra2 vincitore)

/-- `createPartita` as executed when no connection failure occurs. -/
noncomputable def createPartita (db : DBState) (squadra1 squadra2 : ℕ × ℕ)
    (vincitore : ℕ) : Except String PartitaResult × DBState :=
  createPartitaConGuasto db squadra1 squadra2 vincitore (fun _ => false)

/-- `createGiocatore(nome, ruolo)` (database.js lines 166-196); the
auto-increment id assigned by the insert is passed explicitly. -/
def createGiocatore (db : DBState) (nome ruolo : String) (newId : ℕ) :
    Except String Giocatore × DBState :=
  if db.giocatori.any (fun g => g.nome.toLower = nome.toLower) then
    (.error "Giocatore già esistente", db)
  else
    let g : Giocatore := ⟨newId, nome, ruolo, 1500, 0, 0, 0⟩
    (.ok g, { db with giocatori := db.giocatori ++ [g] })

/-- The six sample players reinserted by `insertSampleData` after a reset
(database.js lines 117-124); elo and counters come from the schema
defaults, ids from the restarted auto-increment counter. -/
def sampleGiocatori : List Giocatore :=
  [⟨1, "Mario", "portiere", 1500, 0, 0, 0⟩,
   ⟨2, "Luigi", "attaccante", 1500, 0, 0, 0⟩,
   ⟨3, "Paolo", "portiere", 1500, 0, 0, 0⟩,
   ⟨4, "Marco", "attaccante", 1500, 0, 0, 0⟩,
   ⟨5, "Giovanni", "portiere", 1500, 0, 0, 0⟩,
   ⟨6, "Luca", "attaccante", 1500, 0, 0, 0⟩]

/-- `resetDatabase()` (database.js lines 413-434): guarded by
`process.env.NODE_ENV === 'production'` inside the database component
itself; outside production it truncates both tables and reinserts the
sample players. -/
def resetDatabase (nodeEnv : String) (db : DBState) : Except String Bool × DBState :=
  if nodeEnv = "production" then
    (.error "Reset database non consentito in produzione", db)
  else
    (.ok true, ⟨sampleGiocatori, []⟩)

/-- C4 (witness): the amended statement instantiated at `r = 1500`,
`m = 16` (so `k = 32`, the code's K-factor). -/
theorem calcolaELO_pari_equal_ratings_witness :
    calcolaELO 1500 1500 1 (2 * (16 : ℕ)) = 1500 + (16 : ℕ) ∧
      calcolaELO 1500 1500 0 (2 * (16 : ℕ)) = 1500 - (16 : ℕ) ∧
      ((1500 : ℤ) : ℤ) < calcolaELO 1500 1500 1 (2 * (16 : ℕ)) ∧
      calcolaELO 1500 1500 0 (2 * (16 : ℕ)) < 1500 ∧
      calcolaELO 1500 1500 1 (2 * (16 : ℕ)) - 1500 =
        1500 - calcolaELO 1500 1500 0 (2 * (16 : ℕ)) := by
  have h := calcolaELO_pari_equal_ratings 1500 16 (by norm_num)
  push_cast at h ⊢
  exact h

lemma calcolaELO_1500_win : calcolaELO 1500 1500 1 32 = 1516 := by
  rw [calcolaELO_self]
  push_cast
  rw [Int.floor_eq_iff]
  constructor <;> norm_num

lemma calcolaELO_1500_loss : calcolaELO 1500 1500 0 32 = 1484 := by
  rw [calcolaELO_self]
  push_cast
  rw [Int.floor_eq_iff]
  constructor <;> norm_num

/-- End-to-end scenario 1 state: four players A, B, C, D, all rated 1500,
all counters zero. -/
def dbScenario1 : DBState :=
  ⟨[⟨1, "A", "portiere", 1500, 0, 0, 0⟩,
    ⟨2, "B", "attaccante", 1500, 0, 0, 0⟩,
    ⟨3, "C", "portiere", 1500, 0, 0, 0⟩,
    ⟨4, "D", "attaccante", 1500, 0, 0, 0⟩], []⟩

/-- C3: from the all-1500 state, `createPartita((1,2),(3,4),1)` succeeds
with team deltas `+16` and `-16`, leaves A and B at 1516 with one match
and one win each, C and D at 1484 with one match and one loss each, and
records the match row. -/
theorem createPartita_scenario1 :
    createPartita dbScenario1 (1, 2) (3, 4) 1 =
      (.ok ⟨(1, 2), (3, 4), 1, 16, -16⟩,
        ⟨[⟨1, "A", "portiere", 1516, 1, 1, 0⟩,
          ⟨2, "B", "attaccante", 1516, 1, 1, 0⟩,
          ⟨3, "C", "portiere", 1484, 1, 0, 1⟩,
          ⟨4, "D", "attaccante", 1484, 1, 0, 1⟩],
         [⟨(1, 2), (3, 4), 1⟩]⟩) := by
  unfold createPartita createPartitaConGuasto
  norm_num [dbScenario1, selectGiocatoriIn, eloDi, findGiocatore, List.find?,
    List.filter, updateGiocatore, aggiornaGiocatore, statoDopoPartita,
    risultatoPartita, deltaSquadra, eloSquadra, seVincitore,
    calcolaELO_1500_win, calcolaELO_1500_loss]

lemma calcolaELO_mezzo_win : calcolaELO (3001/2) (3001/2) 1 32 = 1517 := by
  rw [calcolaELO_self]
  push_cast
  rw [Int.floor_eq_iff]
  constructor <;> norm_num

lemma calcolaELO_mezzo_loss : calcolaELO (3001/2) (3001/2) 0 32 = 1485 := by
  rw [calcolaELO_self]
  push_cast
  rw [Int.floor_eq_iff]
  constructor <;> norm_num

/-- A reachable-shaped state in which each team's two members' ratings
have odd sum (1501 + 1500), so both team means are the half-integer
3001/2. -/
def dbDispari : DBState :=
  ⟨[⟨1, "A", "portiere", 1501, 0, 0, 0⟩,
    ⟨2, "B", "attaccante", 1500, 0, 0, 0⟩,
    ⟨3, "C", "portiere", 1500, 0, 0, 0⟩,
    ⟨4, "D", "attaccante", 1501, 0, 0, 0⟩], []⟩

/-- C2: when a team's members' ratings have odd sum, the uniform team
delta is a half-integer (here `+33/2` and `-31/2`) and `createPartita`
stores non-integer ratings: player A ends at `3035/2 = 1517.5`, which is
not an integer, contradicting the integer `rating` field of the data
model (`elo INT` in the code's own schema). -/
theorem createPartita_elo_non_intero :
    (createPartita dbDispari (1, 2) (3, 4) 1).1 =
        .ok ⟨(1, 2), (3, 4), 1, 33/2, -(31/2)⟩ ∧
      findGiocatore (createPartita dbDispari (1, 2) (3, 4) 1).2 1 =
        some ⟨1, "A", "portiere", 3035/2, 1, 1, 0⟩ ∧
      ¬ ∃ z : ℤ, ((3035 : ℚ)/2) = (z : ℚ) := by
  have hev : createPartita dbDispari (1, 2) (3, 4) 1 =
      (.ok ⟨(1, 2), (3, 4), 1, 33/2, -(31/2)⟩,
        ⟨[⟨1, "A", "portiere", 3035/2, 1, 1, 0⟩,
          ⟨2, "B", "attaccante", 3033/2, 1, 1, 0⟩,
          ⟨3, "C", "portiere", 2969/2, 1, 0, 1⟩,
          ⟨4, "D", "attaccante", 2971/2, 1, 0, 1⟩],
         [⟨(1, 2), (3, 4), 1⟩]⟩) := by
    unfold createPartita createPartitaConGuasto
    norm_num [dbDispari, selectGiocatoriIn, eloDi, findGiocatore, List.find?,
      List.filter, updateGiocatore, aggiornaGiocatore, statoDopoPartita,
      risultatoPartita, deltaSquadra, eloSquadra, seVincitore,
      calcolaELO_mezzo_win, calcolaELO_mezzo_loss]
  refine ⟨by rw [hev], by rw [hev]; norm_num [findGiocatore, List.find?], ?_⟩
  rintro ⟨z, hz⟩
  have h2 : (3035 : ℚ) = 2 * (z : ℚ) := by
    field_simp at hz
    linarith
  have h3 : (3035 : ℤ) = 2 * z := by exact_mod_cast h2
  omega

/-- C5: `createPartita` is atomic.  For every input and every pattern of
connection failures at any statement between the player fetch and the
commit, a failed call leaves the durable store exactly as it was before
the call (full rollback), and a successful call is identical to the
fault-free execution, in which all four player updates and the match
insert are applied together. -/
theorem createPartita_atomicita (db : DBState) (s1 s2 : ℕ × ℕ) (v : ℕ)
    (guasto : ℕ → Bool) :
    (∀ e, (createPartitaConGuasto db s1 s2 v guasto).1 = .error e →
        (createPartitaConGuasto db s1 s2 v guasto).2 = db) ∧
      (∀ r, (createPartitaConGuasto db s1 s2 v guasto).1 = .ok r →
        createPartitaConGuasto db s1 s2 v guasto = createPartita db s1 s2 v) := by
  unfold createPartita createPartitaConGuasto
  split_ifs <;> simp_all

/-- C5 (witness): with a failure injected at every statement, the call on
the scenario-1 store reports an error and the store is unchanged. -/
theorem createPartita_atomicita_witness :
    (createPartitaConGuasto dbScenario1 (1, 2) (3, 4) 1 (fun _ => true)).1 =
        .error "errore di connessione" ∧
      (createPartitaConGuasto dbScenario1 (1, 2) (3, 4) 1 (fun _ => true)).2 =
        dbScenario1 := by
  refine ⟨by simp [createPartitaConGuasto], ?_⟩
  exact (createPartita_atomicita dbScenario1 (1, 2) (3, 4) 1 (fun _ => true)).1
    "errore di connessione" (by simp [createPartitaConGuasto])

lemma mem_selectGiocatoriIn {db : DBState} {ids : List ℕ} {g : Giocatore} :
    g ∈ selectGiocatoriIn db ids ↔ g ∈ db.giocatori ∧ g.id ∈ ids := by
  simp [selectGiocatoriIn, List.mem_filter]

lemma nodup_ids_selectGiocatoriIn {db : DBState} {ids : List ℕ}
    (hdb : (db.giocatori.map Giocatore.id).Nodup) :
    ((selectGiocatoriIn db ids).map Giocatore.id).Nodup :=
  List.Nodup.sublist ((List.filter_sublist _).map _) hdb

/-- If one of the requested ids has no row, the `WHERE id IN` fetch
returns strictly fewer rows than requested ids. -/
lemma select_length_lt_of_missing (db : DBState) (ids : List ℕ)
    (hdb : (db.giocatori.map Giocatore.id).Nodup)
    (x : ℕ) (hx : x ∈ ids) (hmiss : findGiocatore db x = none) :
    (selectGiocatoriIn db ids).length < ids.length := by
  have hnd : ((selectGiocatoriIn db ids).map Giocatore.id).Nodup :=
    nodup_ids_selectGiocatoriIn hdb
  have hsub : (selectGiocatoriIn db ids).map Giocatore.id ⊆
      ids.filter (fun y => y ≠ x) := by
    intro y hy
    obtain ⟨g, hgsel, rfl⟩ := List.mem_map.1 hy
    obtain ⟨hgdb, hgid⟩ := mem_selectGiocatoriIn.1 hgsel
    rw [List.mem_filter]
    refine ⟨hgid, ?_⟩
    have hne := List.find?_eq_none.1 hmiss g hgdb
    simpa using hne
  have h1 : ((selectGiocatoriIn db ids).map Giocatore.id).length ≤
      (ids.filter (fun y => y ≠ x)).length :=
    (List.subperm_of_subset hnd hsub).length_le
  have h2 : (ids.filter (fun y => y ≠ x)).length < ids.length := by
    rw [List.length_filter_lt_length_iff_exists]
    exact ⟨x, hx, by simp⟩
  have h3 : ((selectGiocatoriIn db ids).map Giocatore.id).length =
      (selectGiocatoriIn db ids).length := List.length_map _ _
  omega

/-- If the requested ids are pairwise distinct and every one has a row,
the `WHERE id IN` fetch returns exactly one row per requested id. -/
lemma select_length_eq_of_present (db : DBState) (ids : List ℕ)
    (hdb : (db.giocatori.map Giocatore.id).Nodup) (hids : ids.Nodup)
    (hall : ∀ x ∈ ids, (findGiocatore db x).isSome) :
    (selectGiocatoriIn db ids).length = ids.length := by
  have hnd : ((selectGiocatoriIn db ids).map Giocatore.id).Nodup :=
    nodup_ids_selectGiocatoriIn hdb
  have hsub1 : (selectGiocatoriIn db ids).map Giocatore.id ⊆ ids := by
    intro y hy
    obtain ⟨g, hgsel, rfl⟩ := List.mem_map.1 hy
    exact (mem_selectGiocatoriIn.1 hgsel).2
  have hsub2 : ids ⊆ (selectGiocatoriIn db ids).map Giocatore.id := by
    intro x hx
    obtain ⟨g, hg⟩ := Option.isSome_iff_exists.1 (hall x hx)
    have hgdb : g ∈ db.giocatori := List.mem_of_find?_eq_some hg
    have hgid : g.id = x := by
      have := List.find?_some hg
      simpa using this
    exact List.mem_map.2 ⟨g, mem_selectGiocatoriIn.2 ⟨hgdb, hgid ▸ hx⟩, hgid⟩
  have h1 := (List.subperm_of_subset hnd hsub1).length_le
  have h2 := (List.subperm_of_subset hids hsub2).length_le
  have h3 : ((selectGiocatoriIn db ids).map Giocatore.id).length =
      (selectGiocatoriIn db ids).length := List.length_map _ _
  omega

/-- If the requested ids contain a duplicate, the `WHERE id IN` fetch
returns strictly fewer rows than requested ids. -/
lemma select_length_lt_of_dup (db : DBState) (ids : List ℕ)
    (hdb : (db.giocatori.map Giocatore.id).Nodup) (hdup : ¬ ids.Nodup) :
    (selectGiocatoriIn db ids).length < ids.length := by
  have hnd : ((selectGiocatoriIn db ids).map Giocatore.id).Nodup :=
    nodup_ids_selectGiocatoriIn hdb
  have hsub : (selectGiocatoriIn db ids).map Giocatore.id ⊆ ids.dedup := by
    intro y hy
    rw [List.mem_dedup]
    obtain ⟨g, hgsel, rfl⟩ := List.mem_map.1 hy
    exact (mem_selectGiocatoriIn.1 hgsel).2
  have h1 := (List.subperm_of_subset hnd hsub).length_le
  have h2 : ids.dedup.length < ids.length := by
    rcases Nat.lt_or_ge ids.dedup.length ids.length with h | h
    · exact h
    · exfalso
      have hle := (List.dedup_sublist ids).length_le
      have heq : ids.dedup = ids :=
        (List.dedup_sublist ids).eq_of_length (by omega)
      exact hdup (heq ▸ List.nodup_dedup ids)
  have h3 : ((selectGiocatoriIn db ids).map Giocatore.id).length =
      (selectGiocatoriIn db ids).length := List.length_map _ _
  omega

/-- C6: if any of the four supplied player ids has no `giocatori` row,
`createPartita` fails with the unknown-player error and the store is
unchanged; conversely, when the four ids are pairwise distinct and all
resolve, the call returns `.ok` (the error is not raised). -/
theorem createPartita_giocatori_mancanti (db : DBState) (s1 s2 : ℕ × ℕ) (v : ℕ)
    (hdb : (db.giocatori.map Giocatore.id).Nodup) :
    ((∃ p ∈ [s1.1, s1.2, s2.1, s2.2], findGiocatore db p = none) →
        createPartita db s1 s2 v = (.error "Uno o più giocatori non esistono", db)) ∧
      (([s1.1, s1.2, s2.1, s2.2].Nodup ∧
          ∀ p ∈ [s1.1, s1.2, s2.1, s2.2], (findGiocatore db p).isSome) →
        (createPartita db s1 s2 v).1 = .ok (risultatoPartita db s1 s2 v)) := by
  constructor
  · rintro ⟨p, hp, hnone⟩
    have hlen := select_length_lt_of_missing db [s1.1, s1.2, s2.1, s2.2] hdb p hp hnone
    simp only [List.length_cons, List.length_nil] at hlen
    have hne : (selectGiocatoriIn db [s1.1, s1.2, s2.1, s2.2]).length ≠ 4 := by omega
    unfold createPartita createPartitaConGuasto
    simp [hne]
  · rintro ⟨hnd, hall⟩
    have hlen := select_length_eq_of_present db [s1.1, s1.2, s2.1, s2.2] hdb hnd hall
    simp only [List.length_cons, List.length_nil] at hlen
    unfold createPartita createPartitaConGuasto
    simp [hlen]

/-- C6 (witness): with an unknown id 99 the call on the scenario-1 store
fails with the unknown-player error and the store is unchanged. -/
theorem createPartita_giocatori_mancanti_witness :
    createPartita dbScenario1 (1, 2) (3, 99) 1 =
      (.error "Uno o più giocatori non esistono", dbScenario1) :=
  (createPartita_giocatori_mancanti dbScenario1 (1, 2) (3, 99) 1 (by decide)).1
    ⟨99, by decide, by decide⟩

/-- C8: when the four supplied player-id slots contain a duplicate, the
`WHERE id IN` fetch returns fewer than four rows, so `createPartita`
fails (with the unknown-player error) and neither a player row nor a
match row is changed: state is not corrupted. -/
theorem createPartita_duplicati (db : DBState) (s1 s2 : ℕ × ℕ) (v : ℕ)
    (hdb : (db.giocatori.map Giocatore.id).Nodup)
    (hdup : ¬ [s1.1, s1.2, s2.1, s2.2].Nodup) :
    createPartita db s1 s2 v = (.error "Uno o più giocatori non esistono", db) := by
  have hlen := select_length_lt_of_dup db [s1.1, s1.2, s2.1, s2.2] hdb hdup
  simp only [List.length_cons, List.length_nil] at hlen
  have hne : (selectGiocatoriIn db [s1.1, s1.2, s2.1, s2.2]).length ≠ 4 := by omega
  unfold createPartita createPartitaConGuasto
  simp [hne]

/-- C8 (witness): player 1 appearing twice in team 1 on the scenario-1
store makes the call fail and leaves the store unchanged. -/
theorem createPartita_duplicati_witness :
    createPartita dbScenario1 (1, 1) (3, 4) 1 =
      (.error "Uno o più giocatori non esistono", dbScenario1) :=
  createPartita_duplicati dbScenario1 (1, 1) (3, 4) 1 (by decide) (by decide)

lemma aggiorna_id (gid : ℕ) (nuovoElo : ℚ) (w : ℕ) (g : Giocatore) :
    (aggiornaGiocatore gid nuovoElo w g).id = g.id := by
  unfold aggiornaGiocatore
  split <;> rfl

lemma aggiorna_ne {gid : ℕ} {g : Giocatore} (nuovoElo : ℚ) (w : ℕ)
    (h : g.id ≠ gid) : aggiornaGiocatore gid nuovoElo w g = g := by
  unfold aggiornaGiocatore
  rw [if_neg h]

lemma aggiorna_eq {gid : ℕ} {g : Giocatore} (nuovoElo : ℚ) (w : ℕ)
    (h : g.id = gid) :
    aggiornaGiocatore gid nuovoElo w g =
      { g with
        elo := nuovoElo
        partite := g.partite + 1
        vittorie := g.vittorie + w
        sconfitte := g.sconfitte + (1 - w) } := by
  unfold aggiornaGiocatore
  rw [if_pos h]

lemma seVincitore_le_one (vincitore t : ℕ) : seVincitore vincitore t ≤ 1 := by
  unfold seVincitore
  split <;> omega

lemma find?_map_aggiorna (gs : List Giocatore) (gid : ℕ) (nuovoElo : ℚ)
    (w p : ℕ) :
    (gs.map (aggiornaGiocatore gid nuovoElo w)).find? (fun g => g.id = p) =
      (gs.find? (fun g => g.id = p)).map (aggiornaGiocatore gid nuovoElo w) := by
  have hp : ((fun g : Giocatore => decide (g.id = p)) ∘
      aggiornaGiocatore gid nuovoElo w) = (fun g : Giocatore => decide (g.id = p)) := by
    funext g
    simp [Function.comp, aggiorna_id]
  rw [List.find?_map, hp]

lemma inv_map_aggiorna {gs : List Giocatore} {gid : ℕ} {nuovoElo : ℚ} {w : ℕ}
    (hw : w ≤ 1)
    (h : ∀ g ∈ gs, g.partite = g.vittorie + g.sconfitte) :
    ∀ g ∈ gs.map (aggiornaGiocatore gid nuovoElo w),
      g.partite = g.vittorie + g.sconfitte := by
  intro g hg
  obtain ⟨g0, hg0, rfl⟩ := List.mem_map.1 hg
  have h0 := h g0 hg0
  unfold aggiornaGiocatore
  split
  · simp only []
    omega
  · exact h0

lemma aggiorna_mono (gid : ℕ) (nuovoElo : ℚ) (w : ℕ) (g : Giocatore) :
    g.partite ≤ (aggiornaGiocatore gid nuovoElo w g).partite ∧
      g.vittorie ≤ (aggiornaGiocatore gid nuovoElo w g).vittorie ∧
      g.sconfitte ≤ (aggiornaGiocatore gid nuovoElo w g).sconfitte := by
  unfold aggiornaGiocatore
  split
  · simp only []
    omega
  · omega

/-- `createPartita` either rejects the input leaving the store as it was,
or commits exactly the success state. -/
lemma createPartita_casi (db : DBState) (s1 s2 : ℕ × ℕ) (v : ℕ) :
    createPartita db s1 s2 v = (.error "Uno o più giocatori non esistono", db) ∨
      (createPartita db s1 s2 v =
          (.ok (risultatoPartita db s1 s2 v), statoDopoPartita db s1 s2 v) ∧
        (selectGiocatoriIn db [s1.1, s1.2, s2.1, s2.2]).length = 4) := by
  by_cases h : (selectGiocatoriIn db [s1.1, s1.2, s2.1, s2.2]).length = 4
  · right
    refine ⟨?_, h⟩
    unfold createPartita createPartitaConGuasto
    simp [h]
  · left
    unfold createPartita createPartitaConGuasto
    simp [h]

lemma aggiorna_touched (w : ℕ) (hw : w ≤ 1) (g : Giocatore) (gid : ℕ) (e : ℚ)
    (h : g.id = gid) :
    (aggiornaGiocatore gid e w g).partite = g.partite + 1 ∧
      ((aggiornaGiocatore gid e w g).vittorie = g.vittorie + 1 ∧
          (aggiornaGiocatore gid e w g).sconfitte = g.sconfitte ∨
        (aggiornaGiocatore gid e w g).vittorie = g.vittorie ∧
          (aggiornaGiocatore gid e w g).sconfitte = g.sconfitte + 1) := by
  rw [aggiorna_eq e w h]
  interval_cases w
  · exact ⟨rfl, Or.inr ⟨by simp, rfl⟩⟩
  · exact ⟨rfl, Or.inl ⟨rfl, by simp⟩⟩

/-- A player appearing exactly once among the four update targets gets
`partite + 1` and exactly one of `vittorie + 1`, `sconfitte + 1`. -/
lemma catena_partecipante (g : Giocatore) (a b c d : ℕ) (ea eb ec ed : ℚ)
    (wa wb wc wd : ℕ) (hwa : wa ≤ 1) (hwb : wb ≤ 1) (hwc : wc ≤ 1) (hwd : wd ≤ 1)
    (hmem : g.id = a ∧ g.id ≠ b ∧ g.id ≠ c ∧ g.id ≠ d ∨
      g.id ≠ a ∧ g.id = b ∧ g.id ≠ c ∧ g.id ≠ d ∨
      g.id ≠ a ∧ g.id ≠ b ∧ g.id = c ∧ g.id ≠ d ∨
      g.id ≠ a ∧ g.id ≠ b ∧ g.id ≠ c ∧ g.id = d) :
    (aggiornaGiocatore d ed wd (aggiornaGiocatore c ec wc (aggiornaGiocatore b eb wb
        (aggiornaGiocatore a ea wa g)))).partite = g.partite + 1 ∧
      ((aggiornaGiocatore d ed wd (aggiornaGiocatore c ec wc (aggiornaGiocatore b eb wb
            (aggiornaGiocatore a ea wa g)))).vittorie = g.vittorie + 1 ∧
          (aggiornaGiocatore d ed wd (aggiornaGiocatore c ec wc (aggiornaGiocatore b eb wb
            (aggiornaGiocatore a ea wa g)))).sconfitte = g.sconfitte ∨
        (aggiornaGiocatore d ed wd (aggiornaGiocatore c ec wc (aggiornaGiocatore b eb wb
            (aggiornaGiocatore a ea wa g)))).vittorie = g.vittorie ∧
          (aggiornaGiocatore d ed wd (aggiornaGiocatore c ec wc (aggiornaGiocatore b eb wb
            (aggiornaGiocatore a ea wa g)))).sconfitte = g.sconfitte + 1) := by
  rcases hmem with ⟨h1, h2, h3, h4⟩ | ⟨h1, h2, h3, h4⟩ | ⟨h1, h2, h3, h4⟩ | ⟨h1, h2, h3, h4⟩
  · rw [@aggiorna_ne b (aggiornaGiocatore a ea wa g) eb wb
        (by rw [aggiorna_id]; exact h2),
      @aggiorna_ne c (aggiornaGiocatore a ea wa g) ec wc
        (by rw [aggiorna_id]; exact h3),
      @aggiorna_ne d (aggiornaGiocatore a ea wa g) ed wd
        (by rw [aggiorna_id]; exact h4)]
    exact aggiorna_touched wa hwa g a ea h1
  · rw [@aggiorna_ne a g ea wa h1,
      @aggiorna_ne c (aggiornaGiocatore b eb wb g) ec wc
        (by rw [aggiorna_id]; exact h3),
      @aggiorna_ne d (aggiornaGiocatore b eb wb g) ed wd
        (by rw [aggiorna_id]; exact h4)]
    exact aggiorna_touched wb hwb g b eb h2
  · rw [@aggiorna_ne a g ea wa h1, @aggiorna_ne b g eb wb h2,
      @aggiorna_ne d (aggiornaGiocatore c ec wc g) ed wd
        (by rw [aggiorna_id]; exact h4)]
    exact aggiorna_touched wc hwc g c ec h3
  · rw [@aggiorna_ne a g ea wa h1, @aggiorna_ne b g eb wb h2,
      @aggiorna_ne c g ec wc h3]
    exact aggiorna_touched wd hwd g d ed h4

/-- C7: in every reachable store (distinct ids, invariant holding), the
invariant `partite = vittorie + sconfitte` holds after `createGiocatore`
(the new player starts with all counters zero) and after `createPartita`
(success or failure); the counters of every player never decrease across
`createPartita`; and on success each of the four participants gets
`partite + 1` and exactly one of `vittorie + 1` or `sconfitte + 1`. -/
theorem invariante_contatori (db : DBState)
    (hdb : (db.giocatori.map Giocatore.id).Nodup)
    (hinv : ∀ g ∈ db.giocatori, g.partite = g.vittorie + g.sconfitte) :
    (∀ nome ruolo newId, ∀ g ∈ (createGiocatore db nome ruolo newId).2.giocatori,
        g.partite = g.vittorie + g.sconfitte) ∧
      (∀ s1 s2 : ℕ × ℕ, ∀ v : ℕ,
        (∀ g ∈ (createPartita db s1 s2 v).2.giocatori,
            g.partite = g.vittorie + g.sconfitte) ∧
        (∀ p gOld gNew, findGiocatore db p = some gOld →
            findGiocatore (createPartita db s1 s2 v).2 p = some gNew →
            gOld.partite ≤ gNew.partite ∧ gOld.vittorie ≤ gNew.vittorie ∧
              gOld.sconfitte ≤ gNew.sconfitte) ∧
        (∀ r, (createPartita db s1 s2 v).1 = .ok r →
          ∀ p ∈ [s1.1, s1.2, s2.1, s2.2], ∀ gOld, findGiocatore db p = some gOld →
            ∃ gNew, findGiocatore (createPartita db s1 s2 v).2 p = some gNew ∧
              gNew.partite = gOld.partite + 1 ∧
              (gNew.vittorie = gOld.vittorie + 1 ∧ gNew.sconfitte = gOld.sconfitte ∨
                gNew.vittorie = gOld.vittorie ∧ gNew.sconfitte = gOld.sconfitte + 1))) := by
  constructor
  · intro nome ruolo newId g hg
    simp only [createGiocatore] at hg
    split at hg
    · exact hinv g hg
    · simp at hg
      rcases hg with hg | rfl
      · exact hinv g hg
      · rfl
  · intro s1 s2 v
    rcases createPartita_casi db s1 s2 v with herr | ⟨hok, hlen⟩
    · refine ⟨?_, ?_, ?_⟩
      · rw [herr]
        exact hinv
      · intro p gOld gNew hOld hNew
        rw [herr] at hNew
        rw [hOld] at hNew
        cases hNew
        exact ⟨le_refl _, le_refl _, le_refl _⟩
      · intro r hr
        rw [herr] at hr
        simp at hr
    · have hnd : [s1.1, s1.2, s2.1, s2.2].Nodup := by
        by_contra hdup
        have hlt := select_length_lt_of_dup db [s1.1, s1.2, s2.1, s2.2] hdb hdup
        simp only [List.length_cons, List.length_nil] at hlt
        omega
      refine ⟨?_, ?_, ?_⟩
      · rw [hok]
        simp only [statoDopoPartita, updateGiocatore]
        intro g hg
        exact inv_map_aggiorna (seVincitore_le_one v 2)
          (inv_map_aggiorna (seVincitore_le_one v 2)
            (inv_map_aggiorna (seVincitore_le_one v 1)
              (inv_map_aggiorna (seVincitore_le_one v 1) hinv))) g hg
      · intro p gOld gNew hOld hNew
        rw [hok] at hNew
        simp only [findGiocatore] at hOld
        simp only [statoDopoPartita, updateGiocatore, findGiocatore,
          find?_map_aggiorna, hOld, Option.map_some'] at hNew
        cases hNew
        refine ⟨?_, ?_, ?_⟩
        · exact le_trans (aggiorna_mono _ _ _ _).1
            (le_trans (aggiorna_mono _ _ _ _).1
              (le_trans (aggiorna_mono _ _ _ _).1 (aggiorna_mono _ _ _ _).1))
        · exact le_trans (aggiorna_mono _ _ _ _).2.1
            (le_trans (aggiorna_mono _ _ _ _).2.1
              (le_trans (aggiorna_mono _ _ _ _).2.1 (aggiorna_mono _ _ _ _).2.1))
        · exact le_trans (aggiorna_mono _ _ _ _).2.2
            (le_trans (aggiorna_mono _ _ _ _).2.2
              (le_trans (aggiorna_mono _ _ _ _).2.2 (aggiorna_mono _ _ _ _).2.2))
      · intro r hr p hp gOld hOldFind
        have hgOldid : gOld.id = p := by
          simpa using List.find?_some hOldFind
        have hnds := hnd
        simp only [List.nodup_cons, List.mem_cons, List.mem_singleton,
          List.not_mem_nil, or_false] at hnds
        push_neg at hnds
        obtain ⟨⟨h12, h13, h14⟩, ⟨h23, h24⟩, h34, -⟩ := hnds
        simp only [List.mem_cons, List.not_mem_nil, or_false] at hp
        simp only [findGiocatore] at hOldFind
        rw [hok]
        simp only [statoDopoPartita, updateGiocatore, findGiocatore,
          find?_map_aggiorna, hOldFind, Option.map_some']
        refine ⟨_, rfl, ?_⟩
        rcases hp with rfl | rfl | rfl | rfl
        · exact catena_partecipante gOld s1.1 s1.2 s2.1 s2.2 _ _ _ _ _ _ _ _
            (seVincitore_le_one v 1) (seVincitore_le_one v 1)
            (seVincitore_le_one v 2) (seVincitore_le_one v 2)
            (Or.inl ⟨hgOldid, by rw [hgOldid]; exact h12,
              by rw [hgOldid]; exact h13, by rw [hgOldid]; exact h14⟩)
        · exact catena_partecipante gOld s1.1 s1.2 s2.1 s2.2 _ _ _ _ _ _ _ _
            (seVincitore_le_one v 1) (seVincitore_le_one v 1)
            (seVincitore_le_one v 2) (seVincitore_le_one v 2)
            (Or.inr (Or.inl ⟨by rw [hgOldid]; exact Ne.symm h12, hgOldid,
              by rw [hgOldid]; exact h23, by rw [hgOldid]; exact h24⟩))
        · exact catena_partecipante gOld s1.1 s1.2 s2.1 s2.2 _ _ _ _ _ _ _ _
            (seVincitore_le_one v 1) (seVincitore_le_one v 1)
            (seVincitore_le_one v 2) (seVincitore_le_one v 2)
            (Or.inr (Or.inr (Or.inl ⟨by rw [hgOldid]; exact Ne.symm h13,
              by rw [hgOldid]; exact Ne.symm h23, hgOldid,
              by rw [hgOldid]; exact h34⟩)))
        · exact catena_partecipante gOld s1.1 s1.2 s2.1 s2.2 _ _ _ _ _ _ _ _
            (seVincitore_le_one v 1) (seVincitore_le_one v 1)
            (seVincitore_le_one v 2) (seVincitore_le_one v 2)
            (Or.inr (Or.inr (Or.inr ⟨by rw [hgOldid]; exact Ne.symm h14,
              by rw [hgOldid]; exact Ne.symm h24,
              by rw [hgOldid]; exact Ne.symm h34, hgOldid⟩)))

/-- C7 (witness): the counter-monotonicity component applied on the
scenario-1 store to the rejected duplicate call `(1,1)` vs `(3,4)`, whose
post state keeps player 1 unchanged. -/
theorem invariante_contatori_witness :
    (⟨1, "A", "portiere", 1500, 0, 0, 0⟩ : Giocatore).partite ≤
        (⟨1, "A", "portiere", 1500, 0, 0, 0⟩ : Giocatore).partite ∧
      (⟨1, "A", "portiere", 1500, 0, 0, 0⟩ : Giocatore).vittorie ≤
        (⟨1, "A", "portiere", 1500, 0, 0, 0⟩ : Giocatore).vittorie ∧
      (⟨1, "A", "portiere", 1500, 0, 0, 0⟩ : Giocatore).sconfitte ≤
        (⟨1, "A", "portiere", 1500, 0, 0, 0⟩ : Giocatore).sconfitte := by
  have hpost : findGiocatore (createPartita dbScenario1 (1, 1) (3, 4) 1).2 1 =
      some ⟨1, "A", "portiere", 1500, 0, 0, 0⟩ := by
    unfold createPartita createPartitaConGuasto
    simp [selectGiocatoriIn, List.filter, dbScenario1, findGiocatore, List.find?]
  exact ((invariante_contatori dbScenario1 (by decide) (by decide)).2
    (1, 1) (3, 4) 1).2.1 1 ⟨1, "A", "portiere", 1500, 0, 0, 0⟩
    ⟨1, "A", "portiere", 1500, 0, 0, 0⟩ (by decide) hpost

/-- C10: `resetDatabase` checks the deployment context inside the
database component itself: in production it fails with the forbidden
error leaving the store unchanged; outside production it empties the
match table and replaces the player table with the freshly reinserted
sample players (every previous row is cleared). -/
theorem resetDatabase_guardia (nodeEnv : String) (db : DBState) :
    (nodeEnv = "production" →
        resetDatabase nodeEnv db =
          (.error "Reset database non consentito in produzione", db)) ∧
      (nodeEnv ≠ "production" →
        resetDatabase nodeEnv db = (.ok true, ⟨sampleGiocatori, []⟩)) := by
  unfold resetDatabase
  constructor
  · intro h
    rw [if_pos h]
  · intro h
    rw [if_neg h]

/-- C10 (witness): in production the reset is refused and the scenario-1
store is untouched; in development it yields the sample store. -/
theorem resetDatabase_guardia_witness :
    resetDatabase "production" dbScenario1 =
        (.error "Reset database non consentito in produzione", dbScenario1) ∧
      resetDatabase "development" dbScenario1 = (.ok true, ⟨sampleGiocatori, []⟩) :=
  ⟨(resetDatabase_guardia "production" dbScenario1).1 rfl,
    (resetDatabase_guardia "development" dbScenario1).2 (by decide)⟩

end Scalcetting
